import Mathlib

/-!
Verification of the jellyfin-collection synchronization engine.

This file gives a shallow embedding of the collection synchronization engine
(`src/jfc/services/collection_builder.py`, `src/jfc/services/media_matcher.py`,
`src/jfc/services/runner.py` and the models in `src/jfc/models/`) and proves
properties of the embedded functions.

Conventions of the embedding:
* Python `Optional[int]` / `Optional[str]` / `Optional[float]` fields become
  `Option Nat` / `Option String` / `Option ℚ`; Python truthiness (`if x:`)
  is modelled explicitly by the `truthy_*` helpers (`0`, `""`, `[]` and
  `None` are falsy).
* Python `datetime.date` values become `PyDate` records compared
  lexicographically by `(year, month, day)`, exactly as Python compares dates.
* Python's stable `sorted(items, key=k)` is modelled by Mathlib's stable
  `List.insertionSort` with the relation `fun a b => k a ≤ k b`, and
  `sorted(items, key=k, reverse=True)` with `fun a b => k b ≤ k a`; both are
  stable sorts, so they compute the same list as CPython's stable sort.
* Fallible provider calls become `Except String` values.
-/

namespace JFC

/-! ## String helpers -/

/-- Python's `str.lower()`, character by character (as a `List Char` map so
that concrete instances evaluate in the kernel). -/
def str_lower (s : String) : String := String.mk (s.toList.map Char.toLower)

/-! ## Truthiness helpers (Python `if x:` semantics) -/

/-- Python truthiness of an `Optional[int]`: `None` and `0` are falsy. -/
def truthy_nat (o : Option Nat) : Bool :=
  match o with
  | some n => n != 0
  | none => false

/-- Python truthiness of an `Optional[str]`: `None` and `""` are falsy. -/
def truthy_str (o : Option String) : Bool :=
  match o with
  | some s => s != ""
  | none => false

/-- Python truthiness of an `Optional[float]`: `None` and `0.0` are falsy. -/
def truthy_rat (o : Option ℚ) : Bool :=
  match o with
  | some q => q != 0
  | none => false

/-! ## Data model (`src/jfc/models/collection.py`, `src/jfc/models/media.py`) -/

/-- `SyncMode` from `models/collection.py`. -/
inductive SyncMode
  | APPEND
  | SYNC
deriving DecidableEq

/-- `ScheduleType` from `models/collection.py`. -/
inductive ScheduleType
  | DAILY
  | WEEKLY
  | MONTHLY
  | NEVER
deriving DecidableEq

/-- `CollectionOrder` from `models/collection.py`. -/
inductive CollectionOrder
  | CUSTOM
  | SORT_NAME
  | PREMIERE_DATE
  | DATE_CREATED
  | COMMUNITY_RATING
  | CRITIC_RATING
  | RANDOM
deriving DecidableEq

/-- `CollectionSchedule` from `models/collection.py`. -/
structure CollectionSchedule where
  schedule_type : ScheduleType
  day_of_week : Option String := none
  day_of_month : Option Nat := none
deriving DecidableEq

/-- A Python `datetime.date`, compared lexicographically by
`(year, month, day)`. -/
structure PyDate where
  year : Nat
  month : Nat
  day : Nat
deriving DecidableEq

/-- Python `datetime.date.min`, which is `date(1, 1, 1)`. -/
def date_min : PyDate := ⟨1, 1, 1⟩

/-- A genre tag, either a TMDb integer id or a provider name string
(`genres: list[str | int]` in `models/media.py`). -/
inductive Genre
  | gid (n : Int)
  | gname (s : String)
deriving DecidableEq

/-- `MediaItem` from `models/media.py` (the fields read by the embedded
functions). -/
structure MediaItem where
  title : String
  year : Option Nat := none
  tmdb_id : Option Nat := none
  imdb_id : Option String := none
  tvdb_id : Option Nat := none
  original_language : Option String := none
  original_country : Option String := none
  vote_average : Option ℚ := none
  vote_count : Option Nat := none
  genres : List Genre := []
deriving DecidableEq

/-- `LibraryItem` from `models/media.py` (the fields read by the matcher). -/
structure LibraryItem where
  jellyfin_id : String
  title : String
  year : Option Nat := none
  tmdb_id : Option Nat := none
  imdb_id : Option String := none
  tvdb_id : Option Nat := none
deriving DecidableEq

/-- `CollectionItem` from `models/collection.py` (the fields read by the
sorter and the reconciler). -/
structure CollectionItem where
  title : String
  year : Option Nat := none
  jellyfin_id : Option String := none
  premiere_date : Option PyDate := none
  date_created : Option PyDate := none
  community_rating : Option ℚ := none
  critic_rating : Option ℚ := none
  sort_name : Option String := none
deriving DecidableEq

/-- `CollectionFilter` from `models/collection.py` (the fields read by
`_apply_filters` and `_fetch_tmdb_discover`). -/
structure CollectionFilter where
  year_gte : Option Nat := none
  year_lte : Option Nat := none
  vote_average_gte : Option ℚ := none
  vote_average_lte : Option ℚ := none
  critic_rating_gte : Option ℚ := none
  with_genres : List Int := []
  without_genres : List Int := []
  country_not : List String := []
  origin_country_not : List String := []
  original_language_not : List String := []
  tmdb_vote_count_gte : Option Nat := none
deriving DecidableEq

/-! ## Schedule evaluator (`Runner._should_run_today`, `runner.py:432-451`) -/

/-- The facts about "today" that `_should_run_today` reads: the lowercase
result of `today.strftime("%A")` (an English weekday name) and `today.day`. -/
structure Today where
  weekday_name : String
  day : Nat
deriving DecidableEq

/-- `Runner._should_run_today` (`runner.py:432-451`).  `daily` is always due,
`never` is never due, `weekly` compares the lowercased weekday name with
`(schedule.day_of_week or "sunday").lower()`, `monthly` compares the
day-of-month with `(schedule.day_of_month or 1)`. -/
def should_run_today (schedule : CollectionSchedule) (today : Today) : Bool :=
  match schedule.schedule_type with
  | .DAILY => true
  | .NEVER => false
  | .WEEKLY =>
      str_lower today.weekday_name ==
        str_lower (match schedule.day_of_week with
          | some s => if s == "" then "sunday" else s
          | none => "sunday")
  | .MONTHLY =>
      today.day ==
        (match schedule.day_of_month with
          | some d => if d == 0 then 1 else d
          | none => 1)

/-- The schedule gate in `Runner.run` (`runner.py:272-275`): a collection is
skipped only when the run is scheduled, the ignore-schedule flag is off, and
`_should_run_today` is false. -/
def collection_proceeds (scheduled ignore_schedule : Bool)
    (schedule : CollectionSchedule) (today : Today) : Bool :=
  !(scheduled && !ignore_schedule && !(should_run_today schedule today))

/-! ## Reconciler diff (`CollectionBuilder.sync_collection`, lines 258-296) -/

/-- `target_ids_list` (`collection_builder.py:275-277`): the `jellyfin_id` of
each matched item, in sorted order, keeping only truthy ids. -/
def target_ids_of (items : List CollectionItem) : List String :=
  items.filterMap (fun item =>
    match item.jellyfin_id with
    | some j => if j != "" then some j else none
    | none => none)

/-- `to_add_list` (`collection_builder.py:282`): desired ids that are not
current members, in desired order. -/
def compute_to_add_list (target_ids_list : List String)
    (current_ids : List String) : List String :=
  target_ids_list.filter (fun item_id => !current_ids.contains item_id)

/-- `to_remove` (`collection_builder.py:284-289`): in `sync` mode the current
members not in the desired set, in `append` mode nothing. -/
def compute_to_remove_list (sync_mode : SyncMode) (current_ids : List String)
    (target_ids_list : List String) : List String :=
  match sync_mode with
  | .SYNC => current_ids.filter (fun item_id => !target_ids_list.contains item_id)
  | .APPEND => []

/-! ## Reorder decision and mutations (`sync_collection`, lines 297-352) -/

/-- A membership mutation issued to the Jellyfin server. -/
inductive JellyfinOp
  | add (ids : List String)
  | remove (ids : List String)
deriving DecidableEq

/-- `needs_reorder` (`collection_builder.py:299-309`): the order is not
`custom`, or it is `custom` with `sync` semantics on a pre-existing
collection; and there is a pending add, remove, or creation. -/
def needs_reorder (order : CollectionOrder) (mode : SyncMode) (existing : Bool)
    (to_add to_remove : List String) : Bool :=
  (decide (order ≠ CollectionOrder.CUSTOM)
      || (decide (order = CollectionOrder.CUSTOM)
            && decide (mode = SyncMode.SYNC) && existing))
    && (!to_add.isEmpty || !to_remove.isEmpty || !existing)

/-- Whether the clear-and-readd branch runs
(`if needs_reorder and target_ids_list:` at `collection_builder.py:311`). -/
def full_reorder_performed (order : CollectionOrder) (mode : SyncMode)
    (existing : Bool) (current_ids target_ids_list : List String) : Bool :=
  needs_reorder order mode existing
      (compute_to_add_list target_ids_list current_ids)
      (compute_to_remove_list mode current_ids target_ids_list)
    && !target_ids_list.isEmpty

/-- The sequence of membership mutations issued by `sync_collection`
(`collection_builder.py:311-352`): either clear-then-readd (full reorder), or
a plain add followed by a plain remove, each issued only when nonempty. -/
def sync_ops (order : CollectionOrder) (mode : SyncMode) (existing : Bool)
    (current_ids target_ids_list : List String) : List JellyfinOp :=
  let to_add_list := compute_to_add_list target_ids_list current_ids
  let to_remove_list := compute_to_remove_list mode current_ids target_ids_list
  if needs_reorder order mode existing to_add_list to_remove_list
      && !target_ids_list.isEmpty then
    (if !current_ids.isEmpty then [JellyfinOp.remove current_ids] else [])
      ++ [JellyfinOp.add target_ids_list]
  else
    (if !to_add_list.isEmpty then [JellyfinOp.add to_add_list] else [])
      ++ (if !to_remove_list.isEmpty then [JellyfinOp.remove to_remove_list] else [])

/-! ## Sorter (`CollectionBuilder._sort_items_for_collection`, lines 897-961) -/

/-- A `PyDate` as a lexicographic triple, so that the order on `dateLex d`
is exactly Python's order on `date` values. -/
def dateLex (d : PyDate) : ℕ ×ₗ ℕ ×ₗ ℕ := toLex (d.year, toLex (d.month, d.day))

/-- The date used by `sort_key_premiere` (`collection_builder.py:929-932`):
`x.premiere_date or (date(x.year, 1, 1) if x.year else date.min)`. -/
def premiere_key_date (x : CollectionItem) : PyDate :=
  match x.premiere_date with
  | some d => d
  | none =>
      match x.year with
      | some y => if y ≠ 0 then ⟨y, 1, 1⟩ else date_min
      | none => date_min

/-- `sort_key_premiere`: the pair `(d, x.title)` compared lexicographically
(titles as their character lists, which is exactly Python's code-point
comparison of strings). -/
def sort_key_premiere (x : CollectionItem) : (ℕ ×ₗ ℕ ×ₗ ℕ) ×ₗ List Char :=
  toLex (dateLex (premiere_key_date x), x.title.toList)

/-- `sort_key_name` (`collection_builder.py:926-927`):
`(x.sort_name or x.title).lower()`. -/
def sort_key_name (x : CollectionItem) : List Char :=
  (str_lower (match x.sort_name with
    | some s => if s ≠ "" then s else x.title
    | none => x.title)).toList

/-- `sort_key_rating`: `(-(x.community_rating or 0), x.title)`. -/
def sort_key_rating (x : CollectionItem) : ℚ ×ₗ List Char :=
  toLex (-(x.community_rating.getD 0), x.title.toList)

/-- `sort_key_critic`: `(-(x.critic_rating or 0), x.title)`. -/
def sort_key_critic (x : CollectionItem) : ℚ ×ₗ List Char :=
  toLex (-(x.critic_rating.getD 0), x.title.toList)

/-- `sort_key_created`: `(x.date_created or date.min, x.title)`. -/
def sort_key_created (x : CollectionItem) : (ℕ ×ₗ ℕ ×ₗ ℕ) ×ₗ List Char :=
  toLex (dateLex (x.date_created.getD date_min), x.title.toList)

/-- `CollectionBuilder._sort_items_for_collection`
(`collection_builder.py:897-961`).  `custom` keeps source order, `random`
applies the given shuffle, the named modes run Python's stable sort with the
corresponding key; `reverse=True` (used for `PremiereDate` and `DateCreated`)
is the stable sort with the comparison flipped. -/
def sort_items_for_collection (shuffle : List CollectionItem → List CollectionItem)
    (items : List CollectionItem) (order : CollectionOrder) : List CollectionItem :=
  match order with
  | .CUSTOM => items
  | .RANDOM => shuffle items
  | .SORT_NAME =>
      List.insertionSort (fun a b => sort_key_name a ≤ sort_key_name b) items
  | .PREMIERE_DATE =>
      List.insertionSort (fun a b => sort_key_premiere b ≤ sort_key_premiere a) items
  | .COMMUNITY_RATING =>
      List.insertionSort (fun a b => sort_key_rating a ≤ sort_key_rating b) items
  | .CRITIC_RATING =>
      List.insertionSort (fun a b => sort_key_critic a ≤ sort_key_critic b) items
  | .DATE_CREATED =>
      List.insertionSort (fun a b => sort_key_created b ≤ sort_key_created a) items

/-! ## Aggregator deduplication (`CollectionBuilder._fetch_items`, lines 480-505) -/

/-- The dedupe key of an item (`collection_builder.py:485-497`): priority
TMDb id, then IMDb id, then TVDb id, then `(title.lower(), year or 0)`;
`none` when the item has no usable key. -/
def dedupe_key (item : MediaItem) : Option (String × String) :=
  if truthy_nat item.tmdb_id then
    some ("tmdb", toString (item.tmdb_id.getD 0))
  else if truthy_str item.imdb_id then
    some ("imdb", item.imdb_id.getD "")
  else if truthy_nat item.tvdb_id then
    some ("tvdb", toString (item.tvdb_id.getD 0))
  else if item.title != "" then
    some ("title", str_lower item.title ++ "::" ++ toString (item.year.getD 0))
  else
    none

/-- The dedupe loop of `_fetch_items` with its `seen_keys` accumulator
(`collection_builder.py:481-505`). -/
def dedupe_go (seen : List (String × String)) : List MediaItem → List MediaItem
  | [] => []
  | item :: rest =>
      match dedupe_key item with
      | none => dedupe_go seen rest
      | some k =>
          if k ∈ seen then dedupe_go seen rest
          else item :: dedupe_go (k :: seen) rest

/-- Deduplication of the merged provider list, preserving order. -/
def dedupe_items (items : List MediaItem) : List MediaItem := dedupe_go [] items

/-! ## Discover over-fetching (`CollectionBuilder._fetch_tmdb_discover`, lines 513-536) -/

/-- `limit_multiplier` (`collection_builder.py:519-529`): start at `1.0`, add
`0.5` per excluded language and per excluded country, cap at `4.0`.  Python's
float arithmetic is exact on these values, so `ℚ` models it faithfully. -/
def limit_multiplier (filters : Option CollectionFilter) : ℚ :=
  let m : ℚ := 1
  let m :=
    match filters with
    | none => m
    | some f =>
        let m :=
          if !f.original_language_not.isEmpty then
            m + (1 / 2) * f.original_language_not.length
          else m
        if !f.origin_country_not.isEmpty then
          m + (1 / 2) * f.origin_country_not.length
        else m
  min m 4

/-- `adjusted_limit = int(base_limit * limit_multiplier)`
(`collection_builder.py:530`); `int()` truncates, which is the floor for
these non-negative values. -/
def adjusted_limit (base_limit : Nat) (filters : Option CollectionFilter) : Nat :=
  (⌊(base_limit : ℚ) * limit_multiplier filters⌋).toNat

/-! ## Declarative filters (`CollectionBuilder._apply_filters`, lines 822-895) -/

/-- The genre-id coercion in `_apply_filters`
(`g if isinstance(g, int) else int(g) if str(g).isdigit() else 0`). -/
def genre_int (g : Genre) : Int :=
  match g with
  | .gid n => n
  | .gname s => if s != "" && s.all Char.isDigit then ((s.toNat?.getD 0 : Nat) : Int) else 0

/-- The genre-id list of an item as computed in `_apply_filters`. -/
def item_genre_ids (genres : List Genre) : List Int := genres.map genre_int

/-- Guard at `collection_builder.py:833`: drop when `year < year_gte`. -/
def drop_year_gte (f : CollectionFilter) (item : MediaItem) : Bool :=
  truthy_nat f.year_gte && truthy_nat item.year
    && decide (item.year.getD 0 < f.year_gte.getD 0)

/-- Guard at `collection_builder.py:836`: drop when `year > year_lte`. -/
def drop_year_lte (f : CollectionFilter) (item : MediaItem) : Bool :=
  truthy_nat f.year_lte && truthy_nat item.year
    && decide (f.year_lte.getD 0 < item.year.getD 0)

/-- Guard at `collection_builder.py:841-843`: drop when
`vote_average < vote_average_gte`. -/
def drop_vote_average_gte (f : CollectionFilter) (item : MediaItem) : Bool :=
  truthy_rat f.vote_average_gte && truthy_rat item.vote_average
    && decide (item.vote_average.getD 0 < f.vote_average_gte.getD 0)

/-- Guard at `collection_builder.py:844-846`: drop when
`vote_average < critic_rating_gte` (the code reads `vote_average` here). -/
def drop_critic_rating_gte (f : CollectionFilter) (item : MediaItem) : Bool :=
  truthy_rat f.critic_rating_gte && truthy_rat item.vote_average
    && decide (item.vote_average.getD 0 < f.critic_rating_gte.getD 0)

/-- Guard at `collection_builder.py:849-850`: drop when
`vote_count < tmdb_vote_count_gte`. -/
def drop_vote_count_gte (f : CollectionFilter) (item : MediaItem) : Bool :=
  truthy_nat f.tmdb_vote_count_gte && truthy_nat item.vote_count
    && decide (item.vote_count.getD 0 < f.tmdb_vote_count_gte.getD 0)

/-- Guard at `collection_builder.py:854-856`: drop when the item's
`original_country` is in `country_not`. -/
def drop_country_not (f : CollectionFilter) (item : MediaItem) : Bool :=
  !f.country_not.isEmpty && truthy_str item.original_country
    && f.country_not.contains (item.original_country.getD "")

/-- Guard at `collection_builder.py:858-861`: drop when the item's
`original_country` is in `origin_country_not`. -/
def drop_origin_country_not (f : CollectionFilter) (item : MediaItem) : Bool :=
  !f.origin_country_not.isEmpty && truthy_str item.original_country
    && f.origin_country_not.contains (item.original_country.getD "")

/-- Guard at `collection_builder.py:864-867`: drop when the item's
`original_language` is in `original_language_not`. -/
def drop_language_not (f : CollectionFilter) (item : MediaItem) : Bool :=
  !f.original_language_not.isEmpty && truthy_str item.original_language
    && f.original_language_not.contains (item.original_language.getD "")

/-- Guard at `collection_builder.py:870-878`: drop when any excluded genre id
occurs among the item's genre ids. -/
def drop_without_genres (f : CollectionFilter) (item : MediaItem) : Bool :=
  !f.without_genres.isEmpty && !item.genres.isEmpty
    && f.without_genres.any (fun g => (item_genre_ids item.genres).contains g)

/-- Guard at `collection_builder.py:880-887`: drop when no required genre id
occurs among the item's genre ids. -/
def drop_with_genres (f : CollectionFilter) (item : MediaItem) : Bool :=
  !f.with_genres.isEmpty && !item.genres.isEmpty
    && !(f.with_genres.any (fun g => (item_genre_ids item.genres).contains g))

/-- An item survives `_apply_filters` iff no guard of the `continue` chain
fires (`collection_builder.py:831-889`). -/
def passes_filters (f : CollectionFilter) (item : MediaItem) : Bool :=
  !drop_year_gte f item && !drop_year_lte f item
    && !drop_vote_average_gte f item && !drop_critic_rating_gte f item
    && !drop_vote_count_gte f item
    && !drop_country_not f item && !drop_origin_country_not f item
    && !drop_language_not f item
    && !drop_without_genres f item && !drop_with_genres f item

/-- `CollectionBuilder._apply_filters` (`collection_builder.py:822-895`):
filter, then truncate to the (truthy) configured limit. -/
def apply_filters (f : CollectionFilter) (limit : Option Nat)
    (items : List MediaItem) : List MediaItem :=
  let filtered := items.filter (passes_filters f)
  match limit with
  | some n => if n ≠ 0 then filtered.take n else filtered
  | none => filtered

/-! ## Provider fetching (`CollectionBuilder._fetch_items`, lines 378-505) -/

/-- The provider calls of `_fetch_items` in declaration order; each
configured source directive either returns its item list or raises.  The
loop body `items.extend(await call)` awaits each call in turn, so the first
exception propagates and aborts the whole fetch. -/
def fetch_from_sources (sources : List (Except String (List MediaItem))) :
    Except String (List MediaItem) :=
  match sources with
  | [] => Except.ok []
  | s :: rest =>
      match s with
      | .error e => Except.error e
      | .ok items =>
          match fetch_from_sources rest with
          | .error e => Except.error e
          | .ok more => Except.ok (items ++ more)

/-- `CollectionBuilder._fetch_items`: concatenate the per-source results in
order, then deduplicate; any provider exception propagates. -/
def fetch_items (sources : List (Except String (List MediaItem))) :
    Except String (List MediaItem) :=
  match fetch_from_sources sources with
  | .error e => Except.error e
  | .ok all => Except.ok (dedupe_items all)

/-! ## Matcher cache operations issued by a run (`runner.py`, `media_matcher.py`) -/

/-- The `MediaMatcher` cache operations (`media_matcher.py`). -/
inductive MatcherOp
  | ensure_loaded (library_id : String)
  | find_in_library
  | reset
  | clear_cache
deriving DecidableEq

/-- The matcher cache operations issued by one `Runner.run` invocation
(`runner.py:195-345`): when `_startup_done` is still false, the startup
sequence preloads each movie/tvshow library (`startup.py:214-261`, one
`_ensure_library_loaded` per library); then every processed collection calls
`matcher.find_in_library` once per filtered item
(`collection_builder.py:129-130`), which first ensures that item's library is
loaded (`media_matcher.py:71-73`).  `lookups` lists the library id of each
such call, in order.  `Runner.run` contains no call to `MediaMatcher.reset`
or `MediaMatcher.clear_cache`. -/
def runner_run_matcher_ops (startup_done : Bool)
    (preload_library_ids : List String) (lookups : List String) : List MatcherOp :=
  (if startup_done then [] else preload_library_ids.map MatcherOp.ensure_loaded)
    ++ lookups.flatMap (fun lib => [MatcherOp.ensure_loaded lib, MatcherOp.find_in_library])

/-! ## Title matcher (`MediaMatcher._is_match` and `_normalize_title`) -/

/-- The article list of `_normalize_title` (`media_matcher.py:189`). -/
def article_list : List String :=
  ["the ", "a ", "an ", "le ", "la ", "les ", "un ", "une "]

/-- `MediaMatcher._normalize_title` (`media_matcher.py:183-199`): lowercase,
strip leading articles in list order, keep only alphanumeric and whitespace
characters, collapse whitespace. -/
def normalize_title (title : String) : String :=
  let t := title.toList.map Char.toLower
  let t := (article_list.map String.toList).foldl
    (fun acc article => if article.isPrefixOf acc then acc.drop article.length else acc) t
  let t := t.filter (fun c => c.isAlphanum || c.isWhitespace)
  String.mk (List.intercalate [' ']
    ((t.splitOnP Char.isWhitespace).filter (fun w => w != [])))

/-- `MediaMatcher._is_match` (`media_matcher.py:147-181`): TMDb id equality
when both present, else IMDb, else TVDb, else normalized-title equality with
a one-year tolerance when both years are present. -/
def is_match (item : MediaItem) (lib_item : LibraryItem) : Bool :=
  if truthy_nat item.tmdb_id && truthy_nat lib_item.tmdb_id then
    item.tmdb_id.getD 0 == lib_item.tmdb_id.getD 0
  else if truthy_str item.imdb_id && truthy_str lib_item.imdb_id then
    item.imdb_id.getD "" == lib_item.imdb_id.getD ""
  else if truthy_nat item.tvdb_id && truthy_nat lib_item.tvdb_id then
    item.tvdb_id.getD 0 == lib_item.tvdb_id.getD 0
  else if normalize_title item.title != normalize_title lib_item.title then
    false
  else if truthy_nat item.year && truthy_nat lib_item.year then
    decide (((item.year.getD 0 : Int) - (lib_item.year.getD 0 : Int)).natAbs ≤ 1)
  else
    true

/-! ## Theorems -/

/-- C1: the reconciler's diff.  `toAdd` is exactly the desired (matched,
sorted) ids that are not current members, as a sublist of the desired list
(so in desired order, not set order); in `sync` mode `toRemove` is exactly
the set of current members not in the desired set; in `append` mode
`toRemove` is empty.  The two scenario instances from the spec are included:
current `{A,B,C}` with desired `[B,D]` in sync mode gives `toAdd=[D]`,
`toRemove={A,C}`; current `{A,B}` with desired `[B,C]` in append mode gives
`toAdd=[C]`, `toRemove={}`. -/
theorem C1_reconciler_diff :
    (∀ items current, (compute_to_add_list (target_ids_of items) current).Sublist
        (target_ids_of items))
    ∧ (∀ target current x, x ∈ compute_to_add_list target current ↔
        x ∈ target ∧ x ∉ current)
    ∧ (∀ target current x,
        x ∈ compute_to_remove_list SyncMode.SYNC current target ↔
          x ∈ current ∧ x ∉ target)
    ∧ (∀ target current, compute_to_remove_list SyncMode.APPEND current target = [])
    ∧ compute_to_add_list ["B", "D"] ["A", "B", "C"] = ["D"]
    ∧ compute_to_remove_list SyncMode.SYNC ["A", "B", "C"] ["B", "D"] = ["A", "C"]
    ∧ compute_to_add_list ["B", "C"] ["A", "B"] = ["C"]
    ∧ compute_to_remove_list SyncMode.APPEND ["A", "B"] ["B", "C"] = [] := by
  refine ⟨fun items current => List.filter_sublist _, ?_, ?_, ?_, ?_, ?_, ?_, ?_⟩
  · intro target current x
    simp [compute_to_add_list, List.mem_filter]
  · intro target current x
    simp [compute_to_remove_list, List.mem_filter]
  · intro target current
    rfl
  · decide
  · decide
  · decide
  · decide

/-- C7: the schedule evaluator.  `daily` always runs, `never` never runs,
`weekly` runs exactly on the configured weekday name (default `sunday`),
`monthly` runs exactly on the configured day-of-month (default `1`); the
check is bypassed for unscheduled invocations and when the ignore-schedule
flag is set, and otherwise gates exactly on `_should_run_today`.  The
weekly-Sunday scenario from the spec is included. -/
theorem C7_schedule_evaluator :
    (∀ w m t, should_run_today ⟨ScheduleType.DAILY, w, m⟩ t = true)
    ∧ (∀ w m t, should_run_today ⟨ScheduleType.NEVER, w, m⟩ t = false)
    ∧ (∀ m t d, d ≠ "" →
        (should_run_today ⟨ScheduleType.WEEKLY, some d, m⟩ t = true ↔
          str_lower t.weekday_name = str_lower d))
    ∧ (∀ m t, should_run_today ⟨ScheduleType.WEEKLY, none, m⟩ t = true ↔
        str_lower t.weekday_name = "sunday")
    ∧ (∀ w t d, d ≠ 0 →
        (should_run_today ⟨ScheduleType.MONTHLY, w, some d⟩ t = true ↔ t.day = d))
    ∧ (∀ w t, should_run_today ⟨ScheduleType.MONTHLY, w, none⟩ t = true ↔ t.day = 1)
    ∧ (∀ sched t ign, collection_proceeds false ign sched t = true)
    ∧ (∀ sched t schd, collection_proceeds schd true sched t = true)
    ∧ (∀ sched t, collection_proceeds true false sched t = should_run_today sched t)
    ∧ should_run_today ⟨ScheduleType.WEEKLY, some "sunday", none⟩ ⟨"Wednesday", 15⟩ = false
    ∧ should_run_today ⟨ScheduleType.WEEKLY, some "sunday", none⟩ ⟨"Sunday", 15⟩ = true := by
  refine ⟨fun w m t => rfl, fun w m t => rfl, ?_, ?_, ?_, ?_, ?_, ?_, ?_, ?_, ?_⟩
  · intro m t d hd
    simp [should_run_today, hd]
  · intro m t
    simp only [should_run_today, beq_iff_eq]
    rw [show str_lower "sunday" = "sunday" from by decide]
  · intro w t d hd
    simp [should_run_today, hd]
  · intro w t
    simp [should_run_today]
  · intro sched t ign
    simp [collection_proceeds]
  · intro sched t schd
    simp [collection_proceeds]
  · intro sched t
    simp [collection_proceeds]
  · decide
  · decide

/-- C7 witness: the weekly branch instantiated at `day="sunday"` on a Sunday. -/
theorem C7_schedule_evaluator_witness :
    should_run_today ⟨ScheduleType.WEEKLY, some "sunday", none⟩ ⟨"Sunday", 3⟩ = true :=
  (C7_schedule_evaluator.2.2.1 none ⟨"Sunday", 3⟩ "sunday" (by decide)).mpr (by decide)

/-- A candidate carrying a TMDb id, whose normalized title matches
`c10_lib_item` and whose year is within one of it. -/
def c10_item : MediaItem :=
  { title := "The Matrix", year := some 2000, tmdb_id := some 603 }

/-- A library item with a different TMDb id but a matching normalized title
and a year within tolerance. -/
def c10_lib_item : LibraryItem :=
  { jellyfin_id := "jf1", title := "Matrix", year := some 1999, tmdb_id := some 604 }

/-- C10: in `_is_match`, when both sides carry a (truthy) TMDb id the verdict
is exactly equality of those ids; no fallthrough to the IMDb/TVDb or
title/year comparisons happens. -/
theorem C10_tmdb_id_decides (item : MediaItem) (lib_item : LibraryItem) (a b : Nat)
    (ha : item.tmdb_id = some a) (ha0 : a ≠ 0)
    (hb : lib_item.tmdb_id = some b) (hb0 : b ≠ 0) :
    is_match item lib_item = (a == b) := by
  simp [is_match, truthy_nat, ha, hb, ha0, hb0]

/-- C10 witness: two items with differing TMDb ids are judged non-matching
even though their normalized titles are equal and their years differ by 1. -/
theorem C10_tmdb_id_decides_witness :
    is_match c10_item c10_lib_item = false
    ∧ normalize_title c10_item.title = normalize_title c10_lib_item.title
    ∧ c10_item.year = some 2000 ∧ c10_lib_item.year = some 1999 := by
  refine ⟨?_, by decide, rfl, rfl⟩
  rw [C10_tmdb_id_decides c10_item c10_lib_item 603 604 rfl (by decide) rfl (by decide)]
  decide

/-- The over-fetch multiplier in closed form: `min (1 + 0.5 * n) 4` where `n`
counts all exclusion-filter values. -/
theorem limit_multiplier_some (f : CollectionFilter) :
    limit_multiplier (some f) =
      min (1 + (1 / 2) *
        ((f.original_language_not.length + f.origin_country_not.length : ℕ) : ℚ)) 4 := by
  unfold limit_multiplier
  rcases hL : f.original_language_not with _ | ⟨a, as⟩ <;>
    rcases hC : f.origin_country_not with _ | ⟨b, bs⟩
  · simp [hL, hC]
  · simp [hL, hC]
  · simp [hL, hC]
  · simp [hL, hC]
    ring_nf

/-- C5: discover-style over-fetching.  The number of items requested upstream
is the requested count times `min (1 + 0.5 * numExclusionFilterValues) 4`,
truncated to an integer; in particular a directive requesting 20 items with
one excluded language fetches 30. -/
theorem C5_discover_overfetch (base : Nat) (f : CollectionFilter) :
    adjusted_limit base (some f) =
      (⌊(base : ℚ) * min (1 + (1 / 2) *
          ((f.original_language_not.length + f.origin_country_not.length : ℕ) : ℚ)) 4⌋).toNat
    ∧ adjusted_limit 20 (some { original_language_not := ["ja"] }) = 30 := by
  constructor
  · rw [adjusted_limit, limit_multiplier_some]
  · rw [adjusted_limit, limit_multiplier_some]
    norm_num
    decide

/-- C8: no call to `MediaMatcher.reset` occurs anywhere in the matcher-cache
operations issued by `Runner.run` — in particular not at the start of a
scheduled run, whatever the startup state, preloaded libraries, and per-item
lookups are.  (`clear_cache` is likewise never issued.) -/
theorem C8_run_never_resets (startup_done : Bool) (preload lookups : List String) :
    MatcherOp.reset ∉ runner_run_matcher_ops startup_done preload lookups
    ∧ MatcherOp.clear_cache ∉ runner_run_matcher_ops startup_done preload lookups := by
  cases startup_done <;> simp [runner_run_matcher_ops]

/-- An item contributed by a succeeding source directive. -/
def c9_item : MediaItem := { title := "Dune", tmdb_id := some 438631 }

/-- C9 counterexample: with a first source succeeding and a second failing,
`_fetch_items` does not skip the failing source and keep the first source's
contribution — the whole fetch fails, so no candidate list at all is
produced. -/
theorem C9_counterexample :
    fetch_items [Except.ok [c9_item], Except.error "HTTP 500"] = Except.error "HTTP 500"
    ∧ ∀ l, fetch_items [Except.ok [c9_item], Except.error "HTTP 500"] ≠ Except.ok l := by
  constructor
  · rfl
  · intro l h
    rw [show fetch_items [Except.ok [c9_item], Except.error "HTTP 500"]
        = Except.error "HTTP 500" from rfl] at h
    exact Except.noConfusion h

/-- The fetch succeeds exactly when every configured source call succeeds. -/
theorem fetch_from_sources_isOk (sources : List (Except String (List MediaItem))) :
    (fetch_from_sources sources).isOk = true ↔ ∀ s ∈ sources, s.isOk = true := by
  induction sources with
  | nil => simp [fetch_from_sources, Except.isOk, Except.toBool]
  | cons s rest ih =>
      cases s with
      | error e => simp [fetch_from_sources, Except.isOk, Except.toBool]
      | ok items =>
          cases h : fetch_from_sources rest with
          | error e =>
              simp only [fetch_from_sources, h]
              simp only [h, Except.isOk, Except.toBool] at ih
              simp [Except.isOk, Except.toBool, ← ih]
          | ok more =>
              simp only [fetch_from_sources, h]
              simp only [h, Except.isOk, Except.toBool] at ih
              simp [Except.isOk, Except.toBool, ← ih]

/-- C9 (amended): a provider failure is not skipped locally — `_fetch_items`
succeeds iff every configured source call succeeds, and any failing source
makes the whole candidate fetch (and hence the collection's build) fail. -/
theorem C9_provider_failure (sources : List (Except String (List MediaItem))) :
    ((fetch_items sources).isOk = true ↔ ∀ s ∈ sources, s.isOk = true)
    ∧ (∀ e, Except.error e ∈ sources → ∃ e', fetch_items sources = Except.error e') := by
  have hmain : (fetch_items sources).isOk = (fetch_from_sources sources).isOk := by
    unfold fetch_items
    cases h : fetch_from_sources sources <;> simp [Except.isOk, Except.toBool]
  constructor
  · rw [hmain]
    exact fetch_from_sources_isOk sources
  · intro e he
    cases h : fetch_items sources with
    | error e' => exact ⟨e', rfl⟩
    | ok l =>
        exfalso
        have hok : (fetch_from_sources sources).isOk = true := by
          rw [← hmain, h]; rfl
        have := (fetch_from_sources_isOk sources).mp hok (Except.error e) he
        simp [Except.isOk, Except.toBool] at this

/-- C9 witness: the amended theorem applied to a concrete failing source. -/
theorem C9_provider_failure_witness :
    ∃ e', fetch_items [Except.error "timeout"] = Except.error e' :=
  (C9_provider_failure [Except.error "timeout"]).2 "timeout" (by simp)

/-- C3 counterexample: a non-custom-ordered, pre-existing collection whose
desired list is empty has a pending remove, so by the claim a full reorder
must be performed — but the code additionally requires a nonempty desired
list, performs no reorder, and issues a plain remove instead. -/
theorem C3_counterexample :
    full_reorder_performed CollectionOrder.PREMIERE_DATE SyncMode.SYNC true ["A"] [] = false
    ∧ CollectionOrder.PREMIERE_DATE ≠ CollectionOrder.CUSTOM
    ∧ compute_to_remove_list SyncMode.SYNC ["A"] [] = ["A"]
    ∧ sync_ops CollectionOrder.PREMIERE_DATE SyncMode.SYNC true ["A"] []
        = [JellyfinOp.remove ["A"]] := by
  decide

/-- C3 (amended): a full reorder (clear all, then re-add the desired list in
order) is performed exactly when the ordering mode is not custom, or the mode
is custom with sync semantics on a pre-existing collection, AND there is a
pending add, remove, or creation, AND the desired (matched, sorted) id list
is nonempty; and an empty diff on a pre-existing custom-ordered or
append-mode collection issues no membership mutation at all. -/
theorem C3_reorder_decision (order : CollectionOrder) (mode : SyncMode)
    (existing : Bool) (current target : List String) :
    (full_reorder_performed order mode existing current target = true ↔
      ((order ≠ CollectionOrder.CUSTOM
          ∨ (order = CollectionOrder.CUSTOM ∧ mode = SyncMode.SYNC ∧ existing = true))
        ∧ (compute_to_add_list target current ≠ []
            ∨ compute_to_remove_list mode current target ≠ []
            ∨ existing = false)
        ∧ target ≠ []))
    ∧ ((order = CollectionOrder.CUSTOM ∨ mode = SyncMode.APPEND) →
        existing = true →
        compute_to_add_list target current = [] →
        compute_to_remove_list mode current target = [] →
        sync_ops order mode existing current target = []) := by
  constructor
  · unfold full_reorder_performed needs_reorder
    cases order <;> cases mode <;> cases existing <;>
      simp [List.isEmpty_iff]
  · intro _ hex hadd hrem
    simp [sync_ops, hadd, hrem, hex, needs_reorder]

/-- C3 witness: the no-mutation branch at a concrete already-synced
append-mode custom-ordered collection. -/
theorem C3_reorder_decision_witness :
    sync_ops CollectionOrder.CUSTOM SyncMode.APPEND true ["A"] ["A"] = [] :=
  (C3_reorder_decision CollectionOrder.CUSTOM SyncMode.APPEND true ["A"] ["A"]).2
    (Or.inl rfl) rfl (by decide) (by decide)

/-- The dedupe loop output is a sublist of its input (order preserved, no
invention of items). -/
theorem dedupe_go_sublist (items : List MediaItem) (seen : List (String × String)) :
    (dedupe_go seen items).Sublist items := by
  induction items generalizing seen with
  | nil => simp [dedupe_go]
  | cons item rest ih =>
      cases h : dedupe_key item with
      | none =>
          simp only [dedupe_go, h]
          exact (ih seen).cons item
      | some k =>
          by_cases hk : k ∈ seen
          · simp only [dedupe_go, h, if_pos hk]
            exact (ih seen).cons item
          · simp only [dedupe_go, h, if_neg hk]
            exact (ih (k :: seen)).cons₂ item

/-- Every item kept by the dedupe loop has a usable dedupe key. -/
theorem dedupe_go_key_isSome (items : List MediaItem) (seen : List (String × String)) :
    ∀ i ∈ dedupe_go seen items, (dedupe_key i).isSome = true := by
  induction items generalizing seen with
  | nil => simp [dedupe_go]
  | cons item rest ih =>
      cases h : dedupe_key item with
      | none =>
          simp only [dedupe_go, h]
          exact ih seen
      | some k =>
          by_cases hk : k ∈ seen
          · simp only [dedupe_go, h, if_pos hk]
            exact ih seen
          · simp only [dedupe_go, h, if_neg hk]
            intro i hi
            rcases List.mem_cons.mp hi with hi | hi
            · subst hi; simp [h]
            · exact ih (k :: seen) i hi

/-- No item with an already-seen key survives the dedupe loop. -/
theorem dedupe_go_filter_of_mem (items : List MediaItem)
    (seen : List (String × String)) (k : String × String) (hk : k ∈ seen) :
    (dedupe_go seen items).filter (fun i => decide (dedupe_key i = some k)) = [] := by
  induction items generalizing seen with
  | nil => simp [dedupe_go]
  | cons item rest ih =>
      cases h : dedupe_key item with
      | none =>
          simp only [dedupe_go, h]
          exact ih seen hk
      | some k' =>
          by_cases hk' : k' ∈ seen
          · simp only [dedupe_go, h, if_pos hk']
            exact ih seen hk
          · have hne : ¬ dedupe_key item = some k := by
              rw [h]
              intro hcontra
              exact hk' (by injection hcontra with h2; rw [h2]; exact hk)
            simp only [dedupe_go, h, if_neg hk']
            rw [List.filter_cons, if_neg (by simp [hne])]
            exact ih (k' :: seen) (List.mem_cons_of_mem _ hk)

/-- The dedupe loop keeps exactly the first occurrence of each unseen key. -/
theorem dedupe_go_filter_of_not_mem (items : List MediaItem)
    (seen : List (String × String)) (k : String × String) (hk : k ∉ seen) :
    (dedupe_go seen items).filter (fun i => decide (dedupe_key i = some k))
      = (items.filter (fun i => decide (dedupe_key i = some k))).take 1 := by
  induction items generalizing seen with
  | nil => simp [dedupe_go]
  | cons item rest ih =>
      cases h : dedupe_key item with
      | none =>
          simp only [dedupe_go, h]
          rw [List.filter_cons, if_neg (by simp [h])]
          exact ih seen hk
      | some k' =>
          by_cases hkk : k' = k
          · subst hkk
            simp only [dedupe_go, h, if_neg hk]
            rw [List.filter_cons, if_pos (by simp [h]),
              List.filter_cons, if_pos (by simp [h])]
            rw [dedupe_go_filter_of_mem rest (k' :: seen) k' (List.mem_cons_self _ _)]
            simp
          · have hne : ¬ dedupe_key item = some k := by
              rw [h]; intro hcontra; injection hcontra with h2; exact hkk h2
            by_cases hk' : k' ∈ seen
            · simp only [dedupe_go, h, if_pos hk']
              rw [List.filter_cons, if_neg (by simp [hne])]
              exact ih seen hk
            · simp only [dedupe_go, h, if_neg hk']
              rw [List.filter_cons, if_neg (by simp [hne]),
                List.filter_cons, if_neg (by simp [hne])]
              exact ih (k' :: seen) (by
                intro hmem
                rcases List.mem_cons.mp hmem with hmem | hmem
                · exact hkk hmem.symm
                · exact hk hmem)

/-- The keys of the dedupe loop's output are pairwise distinct and disjoint
from the already-seen keys. -/
theorem dedupe_go_keys_nodup (items : List MediaItem) (seen : List (String × String)) :
    ((dedupe_go seen items).filterMap dedupe_key).Nodup
    ∧ ∀ k ∈ (dedupe_go seen items).filterMap dedupe_key, k ∉ seen := by
  induction items generalizing seen with
  | nil => simp [dedupe_go]
  | cons item rest ih =>
      cases h : dedupe_key item with
      | none =>
          simp only [dedupe_go, h]
          exact ih seen
      | some k' =>
          by_cases hk' : k' ∈ seen
          · simp only [dedupe_go, h, if_pos hk']
            exact ih seen
          · simp only [dedupe_go, h, if_neg hk', List.filterMap_cons, h]
            obtain ⟨hnd, hnin⟩ := ih (k' :: seen)
            refine ⟨List.nodup_cons.mpr ⟨fun hmem => hnin k' hmem (List.mem_cons_self _ _), hnd⟩, ?_⟩
            intro k hk
            rcases List.mem_cons.mp hk with hk | hk
            · rw [hk]; exact hk'
            · intro hcontra
              exact hnin k hk (List.mem_cons_of_mem _ hcontra)

/-- On a list whose items all have keys, with pairwise-distinct keys disjoint
from `seen`, the dedupe loop is the identity. -/
theorem dedupe_go_eq_self (items : List MediaItem) (seen : List (String × String))
    (h1 : ∀ i ∈ items, (dedupe_key i).isSome = true)
    (h2 : (items.filterMap dedupe_key).Nodup)
    (h3 : ∀ k ∈ items.filterMap dedupe_key, k ∉ seen) :
    dedupe_go seen items = items := by
  induction items generalizing seen with
  | nil => rfl
  | cons item rest ih =>
      cases h : dedupe_key item with
      | none =>
          have := h1 item (List.mem_cons_self _ _)
          rw [h] at this
          simp at this
      | some k' =>
          have hk' : k' ∉ seen := h3 k' (by simp [List.filterMap_cons, h])
          simp only [dedupe_go, h, if_neg hk']
          rw [List.filterMap_cons, h] at h2 h3
          simp only [List.nodup_cons] at h2
          congr 1
          refine ih (k' :: seen) (fun i hi => h1 i (List.mem_cons_of_mem _ hi)) h2.2 ?_
          intro k hk hmem
          rcases List.mem_cons.mp hmem with hmem | hmem
          · exact h2.1 (hmem ▸ hk)
          · exact h3 k (List.mem_cons_of_mem _ hk) hmem

/-- First duplicate-id item in a concrete C4 scenario. -/
def c4_x1 : MediaItem := { title := "Dune", tmdb_id := some 7 }

/-- Unrelated item in the concrete C4 scenario. -/
def c4_y : MediaItem := { title := "Heat", tmdb_id := some 8 }

/-- A second entry of the same logical item as `c4_x1` (same TMDb id). -/
def c4_x2 : MediaItem := { title := "Dune (alt)", tmdb_id := some 7 }

/-- C4: aggregator deduplication.  The output is a sublist of the input (so
the first occurrence keeps its relative position); keys follow the priority
TMDb id, then IMDb id, then TVDb id, then `(lowercased title, year or 0)`;
an item with no usable key is dropped; for every key the output keeps
exactly the first input occurrence of that key; the operation is idempotent;
and a list with duplicate-id entries of the same logical item keeps exactly
the first. -/
theorem C4_dedupe (items : List MediaItem) :
    (dedupe_items items).Sublist items
    ∧ (∀ i ∈ dedupe_items items, (dedupe_key i).isSome = true)
    ∧ (∀ k, (dedupe_items items).filter (fun i => decide (dedupe_key i = some k))
        = (items.filter (fun i => decide (dedupe_key i = some k))).take 1)
    ∧ dedupe_items (dedupe_items items) = dedupe_items items
    ∧ (∀ i : MediaItem, truthy_nat i.tmdb_id = true →
        dedupe_key i = some ("tmdb", toString (i.tmdb_id.getD 0)))
    ∧ (∀ i : MediaItem, truthy_nat i.tmdb_id = false → truthy_str i.imdb_id = true →
        dedupe_key i = some ("imdb", i.imdb_id.getD ""))
    ∧ (∀ i : MediaItem, truthy_nat i.tmdb_id = false → truthy_str i.imdb_id = false →
        truthy_nat i.tvdb_id = true →
        dedupe_key i = some ("tvdb", toString (i.tvdb_id.getD 0)))
    ∧ (∀ i : MediaItem, truthy_nat i.tmdb_id = false → truthy_str i.imdb_id = false →
        truthy_nat i.tvdb_id = false → i.title ≠ "" →
        dedupe_key i = some ("title", str_lower i.title ++ "::" ++ toString (i.year.getD 0)))
    ∧ (∀ i : MediaItem, truthy_nat i.tmdb_id = false → truthy_str i.imdb_id = false →
        truthy_nat i.tvdb_id = false → i.title = "" → dedupe_key i = none)
    ∧ dedupe_items [c4_x1, c4_y, c4_x2] = [c4_x1, c4_y] := by
  refine ⟨dedupe_go_sublist items [], dedupe_go_key_isSome items [],
    fun k => dedupe_go_filter_of_not_mem items [] k (by simp), ?_,
    ?_, ?_, ?_, ?_, ?_, by decide⟩
  · exact dedupe_go_eq_self (dedupe_items items) []
      (dedupe_go_key_isSome items [])
      (dedupe_go_keys_nodup items []).1
      (fun k _ => by simp)
  · intro i hi
    simp [dedupe_key, hi]
  · intro i h1 h2
    simp [dedupe_key, h1, h2]
  · intro i h1 h2 h3
    simp [dedupe_key, h1, h2, h3]
  · intro i h1 h2 h3 h4
    simp [dedupe_key, h1, h2, h3, h4]
  · intro i h1 h2 h3 h4
    simp [dedupe_key, h1, h2, h3, h4]

/-- C4 witness: the key-priority clauses and take-1 clause at concrete
inputs. -/
theorem C4_dedupe_witness :
    dedupe_key c4_x2 = some ("tmdb", "7")
    ∧ (dedupe_items [c4_x1, c4_y, c4_x2]).filter
        (fun i => decide (dedupe_key i = some ("tmdb", "7"))) = [c4_x1] := by
  constructor
  · exact (C4_dedupe []).2.2.2.2.1 c4_x2 (by decide)
  · rw [(C4_dedupe [c4_x1, c4_y, c4_x2]).2.2.1 ("tmdb", "7")]
    decide

/-- A lower-bound guard on `Option Nat` fields is off exactly when every
truthy pair of bound and value satisfies the inclusive bound. -/
theorem nat_lower_guard_false_iff (fo vo : Option Nat) :
    (truthy_nat fo && truthy_nat vo && decide (vo.getD 0 < fo.getD 0)) = false ↔
      ∀ g v, fo = some g → g ≠ 0 → vo = some v → v ≠ 0 → g ≤ v := by
  cases fo with
  | none => simp [truthy_nat]
  | some g =>
      cases vo with
      | none => simp [truthy_nat]
      | some v =>
          by_cases hg : g = 0 <;> by_cases hv : v = 0 <;>
            simp [truthy_nat, hg, hv, Nat.not_lt]

/-- An upper-bound guard on `Option Nat` fields, in the same style. -/
theorem nat_upper_guard_false_iff (fo vo : Option Nat) :
    (truthy_nat fo && truthy_nat vo && decide (fo.getD 0 < vo.getD 0)) = false ↔
      ∀ g v, fo = some g → g ≠ 0 → vo = some v → v ≠ 0 → v ≤ g := by
  cases fo with
  | none => simp [truthy_nat]
  | some g =>
      cases vo with
      | none => simp [truthy_nat]
      | some v =>
          by_cases hg : g = 0 <;> by_cases hv : v = 0 <;>
            simp [truthy_nat, hg, hv, Nat.not_lt]

/-- A lower-bound guard on `Option ℚ` fields, in the same style. -/
theorem rat_lower_guard_false_iff (fo vo : Option ℚ) :
    (truthy_rat fo && truthy_rat vo && decide (vo.getD 0 < fo.getD 0)) = false ↔
      ∀ g v, fo = some g → g ≠ 0 → vo = some v → v ≠ 0 → g ≤ v := by
  cases fo with
  | none => simp [truthy_rat]
  | some g =>
      cases vo with
      | none => simp [truthy_rat]
      | some v =>
          by_cases hg : g = 0 <;> by_cases hv : v = 0 <;>
            simp [truthy_rat, hg, hv, not_lt]

/-- A set-exclusion guard is off exactly when the (truthy) value avoids the
exclusion list. -/
theorem excl_guard_false_iff (l : List String) (co : Option String) :
    (!l.isEmpty && truthy_str co && l.contains (co.getD "")) = false ↔
      ∀ c, co = some c → c ≠ "" → c ∉ l := by
  cases co with
  | none => simp [truthy_str]
  | some c =>
      by_cases hc : c = ""
      · simp [truthy_str, hc]
      · cases l with
        | nil => simp [truthy_str, hc]
        | cons a as => simp [truthy_str, hc]

/-- The genre-exclusion guard is off exactly when no excluded genre id is
among the item's genre ids. -/
theorem drop_without_genres_false_iff (f : CollectionFilter) (item : MediaItem) :
    drop_without_genres f item = false ↔
      ∀ g, g ∈ f.without_genres → g ∉ item_genre_ids item.genres := by
  cases hw : f.without_genres with
  | nil => simp [drop_without_genres, hw]
  | cons a as =>
      cases hg : item.genres with
      | nil => simp [drop_without_genres, hw, hg, item_genre_ids]
      | cons b bs =>
          rw [drop_without_genres, hw, hg]
          simp only [← hg, ← hw]
          simp [hw, hg]

/-- The genre-inclusion guard is off exactly when, whenever both the filter
and the item have genres, some required genre id is among the item's ids. -/
theorem drop_with_genres_false_iff (f : CollectionFilter) (item : MediaItem) :
    drop_with_genres f item = false ↔
      (f.with_genres ≠ [] → item.genres ≠ [] →
        ∃ g ∈ f.with_genres, g ∈ item_genre_ids item.genres) := by
  cases hw : f.with_genres with
  | nil => simp [drop_with_genres, hw]
  | cons a as =>
      cases hg : item.genres with
      | nil => simp [drop_with_genres, hw, hg]
      | cons b bs =>
          rw [drop_with_genres, hw, hg]
          simp only [← hg, ← hw]
          simp [hw, hg]
          tauto

/-- An item whose `vote_count` is present and equal to `0` but below the
configured inclusive lower bound `100`. -/
def c6_item : MediaItem := { title := "Zero Votes", vote_count := some 0 }

/-- A filter requiring at least 100 votes. -/
def c6_filter : CollectionFilter := { tmdb_vote_count_gte := some 100 }

/-- C6 counterexample: the numeric bound is NOT enforced as an inclusive
bound on every present value — an item whose vote count is present and `0`
(below the bound `100`) is kept, because Python truthiness treats the value
`0` like an absent field. -/
theorem C6_counterexample :
    passes_filters c6_filter c6_item = true
    ∧ c6_item.vote_count = some 0
    ∧ c6_filter.tmdb_vote_count_gte = some 100
    ∧ ¬ (100 : Nat) ≤ 0 := by
  decide

/-- C6 (amended): the filter stage enforces numeric range filters as
inclusive bounds only when both the configured bound and the item's value
are present and non-zero (a zero value, like an absent one, never trips the
filter); a set-exclusion filter drops an item exactly when its (present,
nonempty) value is in the exclusion set, and an excluded genre id drops an
item exactly when it occurs among the item's genre ids; the genre-inclusion
filter keeps an item with genres only when at least one required genre id
occurs among its ids; and an item whose relevant field is absent is never
dropped by the filter testing that field. -/
theorem C6_filter_semantics (f : CollectionFilter) (item : MediaItem) :
    passes_filters f item = true ↔
      ((∀ g y, f.year_gte = some g → g ≠ 0 → item.year = some y → y ≠ 0 → g ≤ y)
      ∧ (∀ g y, f.year_lte = some g → g ≠ 0 → item.year = some y → y ≠ 0 → y ≤ g)
      ∧ (∀ q v, f.vote_average_gte = some q → q ≠ 0 →
          item.vote_average = some v → v ≠ 0 → q ≤ v)
      ∧ (∀ q v, f.critic_rating_gte = some q → q ≠ 0 →
          item.vote_average = some v → v ≠ 0 → q ≤ v)
      ∧ (∀ g c, f.tmdb_vote_count_gte = some g → g ≠ 0 →
          item.vote_count = some c → c ≠ 0 → g ≤ c)
      ∧ (∀ c, item.original_country = some c → c ≠ "" → c ∉ f.country_not)
      ∧ (∀ c, item.original_country = some c → c ≠ "" → c ∉ f.origin_country_not)
      ∧ (∀ c, item.original_language = some c → c ≠ "" → c ∉ f.original_language_not)
      ∧ (∀ g, g ∈ f.without_genres → g ∉ item_genre_ids item.genres)
      ∧ (f.with_genres ≠ [] → item.genres ≠ [] →
          ∃ g ∈ f.with_genres, g ∈ item_genre_ids item.genres)) := by
  constructor
  · intro h
    simp only [passes_filters, Bool.and_eq_true, Bool.not_eq_true'] at h
    obtain ⟨⟨⟨⟨⟨⟨⟨⟨⟨h1, h2⟩, h3⟩, h4⟩, h5⟩, h6⟩, h7⟩, h8⟩, h9⟩, h10⟩ := h
    exact ⟨(nat_lower_guard_false_iff f.year_gte item.year).mp h1,
      (nat_upper_guard_false_iff f.year_lte item.year).mp h2,
      (rat_lower_guard_false_iff f.vote_average_gte item.vote_average).mp h3,
      (rat_lower_guard_false_iff f.critic_rating_gte item.vote_average).mp h4,
      (nat_lower_guard_false_iff f.tmdb_vote_count_gte item.vote_count).mp h5,
      (excl_guard_false_iff f.country_not item.original_country).mp h6,
      (excl_guard_false_iff f.origin_country_not item.original_country).mp h7,
      (excl_guard_false_iff f.original_language_not item.original_language).mp h8,
      (drop_without_genres_false_iff f item).mp h9,
      (drop_with_genres_false_iff f item).mp h10⟩
  · rintro ⟨h1, h2, h3, h4, h5, h6, h7, h8, h9, h10⟩
    simp only [passes_filters, Bool.and_eq_true, Bool.not_eq_true']
    exact ⟨⟨⟨⟨⟨⟨⟨⟨⟨(nat_lower_guard_false_iff f.year_gte item.year).mpr h1,
      (nat_upper_guard_false_iff f.year_lte item.year).mpr h2⟩,
      (rat_lower_guard_false_iff f.vote_average_gte item.vote_average).mpr h3⟩,
      (rat_lower_guard_false_iff f.critic_rating_gte item.vote_average).mpr h4⟩,
      (nat_lower_guard_false_iff f.tmdb_vote_count_gte item.vote_count).mpr h5⟩,
      (excl_guard_false_iff f.country_not item.original_country).mpr h6⟩,
      (excl_guard_false_iff f.origin_country_not item.original_country).mpr h7⟩,
      (excl_guard_false_iff f.original_language_not item.original_language).mpr h8⟩,
      (drop_without_genres_false_iff f item).mpr h9⟩,
      (drop_with_genres_false_iff f item).mpr h10⟩

/-- C6 witness: the characterization applied at a concrete filter and item
(year bound `2000 ≤ 2010` inclusive, no other filter tripped). -/
theorem C6_filter_semantics_witness :
    passes_filters { year_gte := some 2000 } { title := "x", year := some 2010 } = true := by
  refine (C6_filter_semantics { year_gte := some 2000 } { title := "x", year := some 2010 }).mpr
    ⟨?_, ?_, ?_, ?_, ?_, ?_, ?_, ?_, ?_, ?_⟩ <;> simp

/-- The descending-by-key relation used for `PremiereDate` ordering is total. -/
instance : IsTotal CollectionItem (fun a b => sort_key_premiere b ≤ sort_key_premiere a) :=
  ⟨fun a b => le_total (sort_key_premiere b) (sort_key_premiere a)⟩

/-- The descending-by-key relation used for `PremiereDate` ordering is
transitive. -/
instance : IsTrans CollectionItem (fun a b => sort_key_premiere b ≤ sort_key_premiere a) :=
  ⟨fun _ _ _ hab hbc => le_trans hbc hab⟩

/-- `dateLex` is injective: two dates with the same lexicographic image are
equal. -/
theorem dateLex_inj (d e : PyDate) : dateLex d = dateLex e ↔ d = e := by
  cases d
  cases e
  simp [dateLex, Prod.mk.injEq, PyDate.mk.injEq]

/-- First of two items sharing a premiere date; its title sorts before the
other's. -/
def c2_tie_a : CollectionItem := { title := "alpha", premiere_date := some ⟨2020, 5, 1⟩ }

/-- Second of two items sharing a premiere date. -/
def c2_tie_b : CollectionItem := { title := "beta", premiere_date := some ⟨2020, 5, 1⟩ }

/-- Scenario item with premiere year 2020. -/
def c2_p2020 : CollectionItem := { title := "Twenty", premiere_date := some ⟨2020, 3, 10⟩ }

/-- Scenario item with premiere year 2022. -/
def c2_p2022 : CollectionItem := { title := "TwentyTwo", premiere_date := some ⟨2022, 7, 4⟩ }

/-- Scenario item with premiere year 2021. -/
def c2_p2021 : CollectionItem := { title := "TwentyOne", premiere_date := some ⟨2021, 1, 9⟩ }

/-- C2 counterexample: under `PremiereDate` ordering the secondary tiebreak
on equal premiere dates is title DESCENDING, not ascending — `sorted(...,
reverse=True)` flips the whole key tuple, title included.  Two items with
the same premiere date and titles `"alpha" < "beta"` come out as
`[beta, alpha]`, while the claim's title-ascending tiebreak predicts
`[alpha, beta]`. -/
theorem C2_counterexample :
    sort_items_for_collection id [c2_tie_a, c2_tie_b] CollectionOrder.PREMIERE_DATE
      = [c2_tie_b, c2_tie_a]
    ∧ c2_tie_a.premiere_date = c2_tie_b.premiere_date
    ∧ c2_tie_a.title.toList < c2_tie_b.title.toList
    ∧ sort_items_for_collection id [c2_tie_a, c2_tie_b] CollectionOrder.PREMIERE_DATE
      ≠ [c2_tie_a, c2_tie_b] := by
  decide

/-- C2 (amended): `custom` ordering returns the member list unchanged;
`PremiereDate` ordering returns a permutation of the members sorted by
premiere date descending with title DESCENDING as secondary tiebreak (equal
keys keep source order, as the sort is stable), using January 1 of the
member's year as the date when no exact premiere date is present (and
`date.min` when neither is); the `[2020, 2022, 2021] → [2022, 2021, 2020]`
and `custom` scenarios from the spec hold. -/
theorem C2_sort_ordering :
    (∀ shuffle items, sort_items_for_collection shuffle items CollectionOrder.CUSTOM = items)
    ∧ (∀ items, (sort_items_for_collection id items CollectionOrder.PREMIERE_DATE).Pairwise
        (fun a b => sort_key_premiere b ≤ sort_key_premiere a))
    ∧ (∀ items, (sort_items_for_collection id items CollectionOrder.PREMIERE_DATE).Perm items)
    ∧ (∀ a b : CollectionItem, sort_key_premiere b ≤ sort_key_premiere a ↔
        (dateLex (premiere_key_date b) < dateLex (premiere_key_date a)
          ∨ (premiere_key_date b = premiere_key_date a
              ∧ b.title.toList ≤ a.title.toList)))
    ∧ (∀ d e : PyDate, dateLex d < dateLex e ↔
        (d.year < e.year ∨ (d.year = e.year ∧
          (d.month < e.month ∨ (d.month = e.month ∧ d.day < e.day)))))
    ∧ (∀ x y, x.premiere_date = none → x.year = some y → y ≠ 0 →
        premiere_key_date x = ⟨y, 1, 1⟩)
    ∧ sort_items_for_collection id [c2_p2020, c2_p2022, c2_p2021]
        CollectionOrder.PREMIERE_DATE = [c2_p2022, c2_p2021, c2_p2020]
    ∧ sort_items_for_collection id [c2_p2020, c2_p2022, c2_p2021]
        CollectionOrder.CUSTOM = [c2_p2020, c2_p2022, c2_p2021] := by
  refine ⟨fun shuffle items => rfl, ?_, ?_, ?_, ?_, ?_, by decide, rfl⟩
  · intro items
    exact List.sorted_insertionSort _ items
  · intro items
    exact List.perm_insertionSort _ items
  · intro a b
    rw [sort_key_premiere, sort_key_premiere, Prod.Lex.le_iff]
    simp [dateLex_inj]
  · intro d e
    cases d
    cases e
    simp [dateLex, Prod.Lex.lt_iff]
  · intro x y hx hy hy0
    simp [premiere_key_date, hx, hy, hy0]

/-- C2 witness: the year-as-January-1 fallback at a concrete dateless item. -/
theorem C2_sort_ordering_witness :
    premiere_key_date { title := "y", year := some 1999 } = ⟨1999, 1, 1⟩ :=
  C2_sort_ordering.2.2.2.2.2.1 { title := "y", year := some 1999 } 1999 rfl rfl (by decide)

end JFC
